import Mathlib

/-
  Shallow embedding of the GuardianAI moderation pipeline
  (src/bot/handlers/message.py, src/bot/modules/spam/detector.py,
   src/bot/modules/nsfw/detector.py, src/bot/modules/security/scanner.py,
   src/bot/core/config.py).

  Conventions of the embedding:
  * Python floats are modelled by rationals (ℚ). So that every definition is
    evaluable by kernel reduction, arithmetic on ℚ is expressed through the
    `q*` helpers below, which are built from `mkRat`, `Rat.num` and `Rat.den`
    only; each helper is proved equal to the corresponding Mathlib operation
    (`qAdd_eq`, `qMul_eq`, ...) in the theorem section. A decimal literal of
    the source such as `0.3` is written `mkRat 3 10`.
  * `datetime` timestamps are modelled by rationals measured in seconds, and
    `timedelta(minutes=k)` by `60 * k` seconds.
  * Python regular expressions are modelled by hand-specialised decidable
    matchers; each matcher carries a comment stating the regex it models and
    how search/backtracking semantics reduce to the stated bounded search.
  * Fallible Python code that catches exceptions and returns a default is
    modelled by total functions returning that default on the same inputs.
-/

set_option maxRecDepth 10000

namespace GuardianAI

/- ------------------------------------------------------------------ -/
/- Kernel-computable rational arithmetic                               -/
/- ------------------------------------------------------------------ -/

/-- Embedding of a natural number into ℚ by kernel-computable means. -/
def qOfNat (n : Nat) : ℚ := mkRat (Int.ofNat n) 1

/-- Negation on ℚ by kernel-computable means. -/
def qNeg (a : ℚ) : ℚ := mkRat (-a.num) a.den

/-- Addition on ℚ by kernel-computable means. -/
def qAdd (a b : ℚ) : ℚ := mkRat (a.num * b.den + b.num * a.den) (a.den * b.den)

/-- Subtraction on ℚ by kernel-computable means. -/
def qSub (a b : ℚ) : ℚ := mkRat (a.num * b.den - b.num * a.den) (a.den * b.den)

/-- Multiplication on ℚ by kernel-computable means. -/
def qMul (a b : ℚ) : ℚ := mkRat (a.num * b.num) (a.den * b.den)

/-- Division of a rational by a natural number (the only division shape the
source needs) by kernel-computable means; division by zero yields 0 exactly
as for `/` on ℚ. -/
def qDivNat (a : ℚ) (n : Nat) : ℚ := mkRat a.num (a.den * n)

/-- Binary minimum on ℚ, the value of Python `min(a, b)`. -/
def qMin (a b : ℚ) : ℚ := if b < a then b else a

/-- Binary maximum on ℚ, the value of Python `max(a, b)`. -/
def qMax (a b : ℚ) : ℚ := if a < b then b else a

/-- Absolute value on ℚ by kernel-computable means. -/
def qAbs (a : ℚ) : ℚ := if a < mkRat 0 1 then qNeg a else a

/-- Sum of a list of rationals (`np.sum`-style folds) by kernel-computable
means. -/
def qSum : List ℚ → ℚ
  | [] => mkRat 0 1
  | x :: t => qAdd x (qSum t)

abbrev Chars := List Char

/-- Characters matched by the Python regex class `\w` (ASCII fragment):
letters, digits and underscore. -/
def isWordChar (c : Char) : Bool := c.isAlphanum || c = '_'

/-- Word boundary `\b` of Python regexes at position `i` of `s`: the position
lies between a word character and a non-word character (positions outside the
string count as non-word). -/
def boundaryAt (s : Chars) (i : Nat) : Bool :=
  let isW : Option Char → Bool := fun oc =>
    match oc with
    | some c => isWordChar c
    | none => false
  let left : Bool :=
    match i with
    | 0 => false
    | j + 1 => isW (s.get? j)
  left != isW (s.get? i)

/-- The literal word `w` occurs in `s` starting at position `i`. -/
def occursAt (s : Chars) (w : Chars) (i : Nat) : Bool :=
  decide ((s.drop i).take w.length = w)

/-- Substring containment, the semantics of Python's `w in s` for strings. -/
def containsStr (s : Chars) (w : Chars) : Bool :=
  (List.range (s.length + 1)).any fun i => occursAt s w i

/-- Length of the maximal run of characters satisfying `p` starting at `i`. -/
def runLen (p : Char → Bool) (s : Chars) (i : Nat) : Nat :=
  ((s.drop i).takeWhile p).length

/-- Alternation of literal words at a fixed position, with optional `\b`
requirements on the left and right ends; returns the end position of the
matched word. Models `(?:w1|w2|...)` with optional surrounding `\b`. -/
def wordAltAt (s : Chars) (alts : List Chars) (i : Nat) (bLeft bRight : Bool) : Option Nat :=
  alts.findSome? fun w =>
    if (!bLeft || boundaryAt s i) && occursAt s w i &&
       (!bRight || boundaryAt s (i + w.length)) then
      some (i + w.length)
    else none

/-- No newline occurs in `s` between positions `j` (inclusive) and `k`
(exclusive); the characters consumed by a regex `.*` must satisfy this. -/
def noNewlineBetween (s : Chars) (j k : Nat) : Bool :=
  ((s.drop j).take (k - j)).all fun c => c != '\n'

/-- Models a regex tail `.*(?:w1|w2|...)` (with optional trailing `\b`)
starting from position `e`: some alternative occurs at a position `k ≥ e`
with no newline skipped over in between. Existence over all `k` captures
the greedy-with-backtracking search semantics. -/
def thenDotStarAlt (s : Chars) (e : Nat) (alts : List Chars) (bRight : Bool) : Bool :=
  (List.range (s.length + 1)).any fun k =>
    decide (e ≤ k) && noNewlineBetween s e k && (wordAltAt s alts k false bRight).isSome

/-- Models `re.search` of `ALT1.*ALT2` with configurable `\b` anchors:
the match may start at any position of the string. -/
def searchSeq (s : Chars) (alts1 : List Chars) (b1L b1R : Bool)
    (alts2 : List Chars) (b2R : Bool) : Bool :=
  (List.range (s.length + 1)).any fun i =>
    match wordAltAt s alts1 i b1L b1R with
    | some e => thenDotStarAlt s e alts2 b2R
    | none => false

/-- Models `re.search` of `\b(?:w1|w2|...)\b`. -/
def searchWordAlt (s : Chars) (alts : List Chars) : Bool :=
  (List.range (s.length + 1)).any fun i => (wordAltAt s alts i true true).isSome

def strsToChars (l : List String) : List Chars := l.map String.data

/-- ASCII lowering of a string, the effect of Python `str.lower` (and of the
regex flag `(?i)` when the patterns below are evaluated on lowered text). -/
def strLowerS (s : String) : String := ⟨s.data.map Char.toLower⟩

/- ------------------------------------------------------------------ -/
/- Spam detector: src/bot/modules/spam/detector.py                     -/
/- ------------------------------------------------------------------ -/

/-- Models spam pattern 1,
`(?i)\b(?:free|win|prize|money|cash|earn|bitcoin|crypto)\b.*(?:click|link|visit)`,
evaluated on lowered text. -/
def spamPat1 (s : Chars) : Bool :=
  searchSeq s (strsToChars ["free", "win", "prize", "money", "cash", "earn", "bitcoin", "crypto"])
    true true (strsToChars ["click", "link", "visit"]) false

/-- Models spam pattern 2,
`(?i)\b(?:telegram|whatsapp|signal).*(?:channel|group|join)\b`
(note: no `\b` after the first group, `\b` after the second). -/
def spamPat2 (s : Chars) : Bool :=
  searchSeq s (strsToChars ["telegram", "whatsapp", "signal"]) true false
    (strsToChars ["channel", "group", "join"]) true

/-- Models spam pattern 3,
`(?i)\b(?:investment|trading|forex|binary)\b.*(?:profit|guarantee)`. -/
def spamPat3 (s : Chars) : Bool :=
  searchSeq s (strsToChars ["investment", "trading", "forex", "binary"]) true true
    (strsToChars ["profit", "guarantee"]) false

/-- Models spam pattern 4, `(.)\1{10,}` (case sensitive, no `(?i)`):
eleven or more consecutive copies of one character; `.` excludes newline. -/
def spamPat4 (s : Chars) : Bool :=
  (List.range s.length).any fun i =>
    match s.get? i with
    | some c => c != '\n' && occursAt s (List.replicate 11 c) i
    | none => false

/-- Models spam pattern 5, `\b(\w+)\s+\1\s+\1` (case sensitive).
Because `(\w+)` is immediately followed by `\s`, the captured word must be the
maximal `\w` run at its start; because `\1` starts with a word character, each
`\s+` must consume the whole whitespace run before it. The search therefore
reduces to the bounded check below. -/
def spamPat5 (s : Chars) : Bool :=
  (List.range (s.length + 1)).any fun i =>
    boundaryAt s i &&
    (let l := runLen isWordChar s i
     let w := (s.drop i).take l
     let a := runLen (fun c => c.isWhitespace) s (i + l)
     decide (1 ≤ l) && decide (1 ≤ a) && occursAt s w (i + l + a) &&
     (let k := i + l + a + l
      let b := runLen (fun c => c.isWhitespace) s k
      decide (1 ≤ b) && occursAt s w (k + b)))

/-- Models spam pattern 6, `(?i)\b(?:nude|sex|porn|xxx|adult|18\+)\b`. -/
def spamPat6 (s : Chars) : Bool :=
  searchWordAlt s (strsToChars ["nude", "sex", "porn", "xxx", "adult", "18+"])

/-- Models spam pattern 7, `(?i)\b(?:hack|crack|cheat|bot|auto)\b.*(?:free|download)`. -/
def spamPat7 (s : Chars) : Bool :=
  searchSeq s (strsToChars ["hack", "crack", "cheat", "bot", "auto"]) true true
    (strsToChars ["free", "download"]) false

/-- Models spam pattern 8, `(?i)\b(?:urgent|limited|expire|act now|hurry)\b`. -/
def spamPat8 (s : Chars) : Bool :=
  searchWordAlt s (strsToChars ["urgent", "limited", "expire", "act now", "hurry"])

/-- Models spam pattern 9, `(?i)\b(?:congratulations|winner|selected|chosen)\b`. -/
def spamPat9 (s : Chars) : Bool :=
  searchWordAlt s (strsToChars ["congratulations", "winner", "selected", "chosen"])

/-- Character class of the URL-extraction regex:
`[a-zA-Z]|[0-9]|[$-_@.&+]|[!*\\(\\),]|%hh` — the class `[$-_]` is the byte
range 0x24–0x5F, and the `%hh` alternative is subsumed by it. -/
def urlChar (c : Char) : Bool :=
  c.isAlpha || c.isDigit || (decide (0x24 ≤ c.toNat) && decide (c.toNat ≤ 0x5F)) ||
  ['!', '*', '\\', '(', ')', ','].contains c

/-- A URL scheme `http[s]?://` occurs at position `i`; returns its length.
The optional `s` is greedy, so `https://` is preferred. -/
def urlStartLen (s : Chars) (i : Nat) : Option Nat :=
  if occursAt s "https://".data i then some 8
  else if occursAt s "http://".data i then some 7
  else none

/-- Scan loop of `re.findall` for the URL regex
`http[s]?://(?:[a-zA-Z]|[0-9]|[$-_@.&+]|[!*\\(\\),]|(?:%hh))+`:
leftmost matches, each greedy (maximal run of `urlChar`, at least one),
resuming after the end of each match. `fuel` bounds the recursion and is
chosen large enough that it never runs out. -/
def extractUrlsGo (s : Chars) : Nat → Nat → List Chars
  | _, 0 => []
  | i, fuel + 1 =>
    if i < s.length then
      match urlStartLen s i with
      | some p =>
        let r := runLen urlChar s (i + p)
        if 1 ≤ r then
          ((s.drop i).take (p + r)) :: extractUrlsGo s (i + p + r) fuel
        else extractUrlsGo s (i + 1) fuel
      | none => extractUrlsGo s (i + 1) fuel
    else []

/-- Models the `re.findall` URL extraction used by the spam detector and the
link scanner. -/
def extract_urls (text : String) : List String :=
  (extractUrlsGo text.data 0 (text.data.length + 1)).map fun cs => ⟨cs⟩

/-- Splitting on a separator character, the semantics of Python
`str.split(sep)`: empty segments are kept. -/
def splitOnChar (sep : Char) : Chars → List Chars
  | [] => [[]]
  | c :: t =>
    let r := splitOnChar sep t
    if c = sep then [] :: r
    else
      match r with
      | h :: t2 => (c :: h) :: t2
      | [] => [[c]]

/-- Models `_extract_domain`: `url.split('/')[2].lower()`, stripping a leading
`www.`; an out-of-range index (fewer than three segments) raises in Python and
is caught, yielding the empty string. -/
def extract_domain (url : String) : String :=
  match (splitOnChar '/' url.data).get? 2 with
  | some d =>
    let d := d.map Char.toLower
    if occursAt d "www.".data 0 then ⟨d.drop 4⟩ else ⟨d⟩
  | none => ""

/-- The spam-domain blocklist `self.spam_domains`. -/
def spam_domains : List String := ["bit.ly", "tinyurl.com", "short.link", "cutt.ly"]

/-- Results of `pattern.search(text)` for the nine compiled spam patterns, in
source order. Patterns with the `(?i)` flag are evaluated on the lowered text
(equivalent for ASCII); patterns 4 and 5 carry no `(?i)` and are evaluated on
the original text. -/
def pattern_matches (text : String) : List Bool :=
  let low := text.data.map Char.toLower
  let orig := text.data
  [spamPat1 low, spamPat2 low, spamPat3 low, spamPat4 orig, spamPat5 orig,
   spamPat6 low, spamPat7 low, spamPat8 low, spamPat9 low]

/-- Contribution of the pattern loop: `confidence += 0.3` per matching pattern. -/
def pattern_score (text : String) : ℚ :=
  qMul (mkRat 3 10) (qOfNat ((pattern_matches text).countP id))

/-- Fraction of uppercase characters over the whole text,
`sum(1 for c in text if c.isupper()) / len(text)`. -/
def caps_frac (text : String) : ℚ :=
  qDivNat (qOfNat (text.data.countP Char.isUpper)) text.data.length

/-- Capitalization contribution: computed only for texts longer than 10
characters (`if len(text) > 10`), adding 0.4 when the ratio exceeds 0.7. -/
def caps_contribution (text : String) : ℚ :=
  if 10 < text.data.length then
    (if mkRat 7 10 < caps_frac text then mkRat 4 10 else mkRat 0 1)
  else mkRat 0 1

/-- Punctuation fraction `sum(1 for c in text if c in '!?.,;') / len(text)`,
defined as 0 for empty text exactly as in the source. -/
def punct_frac (text : String) : ℚ :=
  if text.data = [] then mkRat 0 1
  else qDivNat (qOfNat (text.data.countP fun c => ['!', '?', '.', ',', ';'].contains c))
    text.data.length

/-- Punctuation contribution: adds 0.3 when the fraction exceeds 0.3. -/
def punct_contribution (text : String) : ℚ :=
  if mkRat 3 10 < punct_frac text then mkRat 3 10 else mkRat 0 1

/-- URL contribution: `confidence += 0.5` for every extracted URL whose
extracted domain is in the spam-domain blocklist. -/
def url_contribution (text : String) : ℚ :=
  qMul (mkRat 5 10) (qOfNat ((extract_urls text).countP fun u => spam_domains.contains (extract_domain u)))

/-- Splitting on characters satisfying `p`, keeping empty segments. -/
def splitOnPred (p : Char → Bool) : Chars → List Chars
  | [] => [[]]
  | c :: t =>
    let r := splitOnPred p t
    if p c then [] :: r
    else
      match r with
      | h :: t2 => (c :: h) :: t2
      | [] => [[c]]

/-- Splitting on whitespace runs dropping empty segments, the semantics of
Python `str.split()` with no argument. -/
def pyWords (text : String) : List String :=
  ((splitOnPred Char.isWhitespace text.data).filter fun w => w ≠ []).map fun cs => ⟨cs⟩

/-- Repetition contribution: for texts of more than 5 (lowered) words, adds
0.4 when `1 - unique/total` exceeds 0.6; `len(set(words))` is the number of
distinct words. -/
def rep_contribution (text : String) : ℚ :=
  let words := pyWords (strLowerS text)
  if 5 < words.length then
    (if mkRat 6 10 < qSub (mkRat 1 1) (qDivNat (qOfNat words.dedup.length) words.length)
     then mkRat 4 10 else mkRat 0 1)
  else mkRat 0 1

/-- Emoji contribution: characters with code point strictly above 0x1F600;
adds 0.3 when their fraction exceeds 0.3 (on nonempty text). -/
def emoji_contribution (text : String) : ℚ :=
  if 0 < text.data.length ∧
     mkRat 3 10 < qDivNat (qOfNat (text.data.countP fun c => 0x1F600 < c.toNat)) text.data.length
  then mkRat 3 10 else mkRat 0 1

structure SpamResult where
  is_spam : Bool
  confidence : ℚ
deriving DecidableEq

/-- Running score accumulated by `_analyze_text` before clipping, in source
order: patterns, capitalization, punctuation, URLs, repetition, emojis. -/
def raw_confidence (text : String) : ℚ :=
  qAdd (qAdd (qAdd (qAdd (qAdd (pattern_score text) (caps_contribution text))
    (punct_contribution text)) (url_contribution text)) (rep_contribution text))
    (emoji_contribution text)

/-- Models `SpamDetector._analyze_text`: the spam verdict compares the raw
running score with the literal 0.6 and the reported confidence is
`min(confidence, 1.0)`. -/
def analyze_text (text : String) : SpamResult :=
  { is_spam := decide (mkRat 6 10 < raw_confidence text)
    confidence := qMin (raw_confidence text) (mkRat 1 1) }

/-- The shape of `SpamDetector.detect_spam`: empty text short-circuits to
`False` before the analyzer is ever invoked; the analyzer is a parameter here
precisely to express that it is not evaluated on empty text. -/
def detect_spam_gen (analyze : String → SpamResult) (text : String) : Bool :=
  if text = "" then false else (analyze text).is_spam

/-- Models `SpamDetector.detect_spam`. -/
def detect_spam (text : String) : Bool := detect_spam_gen analyze_text text

/- ------------------------------------------------------------------ -/
/- NSFW detector: src/bot/modules/nsfw/detector.py                     -/
/- ------------------------------------------------------------------ -/

/-- An RGB pixel of the decoded image, `np.array(img)` entries (uint8). -/
abbrev Pixel := Nat × Nat × Nat

/-- The decoded image surface, a rectangular `height × width` grid of pixels. -/
abbrev Grid := List (List Pixel)

def gridHeight (g : Grid) : Nat := g.length

def gridWidth (g : Grid) : Nat := (g.head?.getD []).length

/-- Pixel access `pixels[i, j]`; out-of-range access (never exercised on the
rectangular grids produced by numpy) defaults to black. -/
def pixelAt (g : Grid) (i j : Nat) : Pixel := (((g.get? i).getD []).get? j).getD (0, 0, 0)

/-- The skin heuristic of `_detect_skin_tones` for one sampled pixel:
`r > 95 and g > 40 and b > 20 and max-min > 15 and abs(r - g) > 15 and
r > g and r > b`. `r - g` is numpy uint8 arithmetic, so `abs(r - g)` is the
wrap-around value `(r + 256 - g) % 256` (the conjunct `r > g` makes this agree
with exact integers on every pixel the rule accepts). -/
def skinLike (p : Pixel) : Bool :=
  decide (95 < p.1) && decide (40 < p.2.1) && decide (20 < p.2.2) &&
  decide (15 < max p.1 (max p.2.1 p.2.2) - min p.1 (min p.2.1 p.2.2)) &&
  decide (15 < (p.1 + 256 - p.2.1) % 256) &&
  decide (p.2.1 < p.1) && decide (p.2.2 < p.1)

/-- The sample positions of `range(0, n, 5)`. -/
def sampleIdxs (n : Nat) : List Nat := (List.range ((n + 4) / 5)).map (· * 5)

/-- Models `_detect_skin_tones`: sample every 5th pixel in both axes, count
skin-like samples, divide by `(height // 5) * (width // 5)` (0 when that
denominator is 0), then `min(skin_ratio * 2, 1.0)`. -/
def detect_skin_tones (g : Grid) : ℚ :=
  let h := gridHeight g
  let w := gridWidth g
  let skin_pixels := ((sampleIdxs h).map fun i =>
    (sampleIdxs w).countP fun j => skinLike (pixelAt g i j)).sum
  let sampled_pixels := (h / 5) * (w / 5)
  let skin_ratio := if 0 < sampled_pixels then qDivNat (qOfNat skin_pixels) sampled_pixels
    else mkRat 0 1
  qMin (qMul skin_ratio (mkRat 2 1)) (mkRat 1 1)

/-- Grayscale conversion `np.dot(pixels[...,:3], [0.2989, 0.5870, 0.1140])`
for one pixel. -/
def luminance (p : Pixel) : ℚ :=
  qAdd (qAdd (qMul (mkRat 2989 10000) (qOfNat p.1)) (qMul (mkRat 5870 10000) (qOfNat p.2.1)))
    (qMul (mkRat 1140 10000) (qOfNat p.2.2))

/-- Absolute horizontal first differences of one row,
`np.abs(np.diff(gray, axis=1))`. -/
def rowAbsDiffs (row : List ℚ) : List ℚ :=
  (row.zip row.tail).map fun p => qAbs (qSub p.1 p.2)

/-- Sum of absolute vertical first differences,
`np.abs(np.diff(gray, axis=0))` summed over all entries. -/
def colAbsDiffSum (gray : List (List ℚ)) : ℚ :=
  qSum ((gray.zip gray.tail).map fun rp =>
    qSum ((rp.1.zip rp.2).map fun p => qAbs (qSub p.1 p.2)))

/-- Models `_calculate_edge_density`: mean absolute horizontal plus mean
absolute vertical first differences of the luminance grid, normalized to
`max(0, 1 - edge_strength / 50)`. The means divide by the numpy shape counts
`h*(w-1)` and `(h-1)*w`; a zero count makes numpy produce NaN (on which every
later comparison is false) — the embedding returns the rational 0 for the
empty mean instead, a divergence only for degenerate one-pixel-wide or
one-pixel-tall images. -/
def calculate_edge_density (g : Grid) : ℚ :=
  let gray : List (List ℚ) := g.map fun row => row.map luminance
  let h := gridHeight g
  let w := gridWidth g
  let meanX := qDivNat (qSum (gray.map fun row => qSum (rowAbsDiffs row))) (h * (w - 1))
  let meanY := qDivNat (colAbsDiffSum gray) ((h - 1) * w)
  let edge_strength := qAdd meanX meanY
  qMax (mkRat 0 1) (qSub (mkRat 1 1) (qDivNat edge_strength 50))

/-- Models `_analyze_image_content` on a decoded pixel grid:
`confidence = (skin_ratio * 0.6) + (edge_density * 0.4)`, then
`min(confidence, 1.0)`. -/
def analyze_image_content (g : Grid) : ℚ :=
  qMin (qAdd (qMul (detect_skin_tones g) (mkRat 6 10)) (qMul (calculate_edge_density g) (mkRat 4 10)))
    (mkRat 1 1)

structure NSFWResult where
  is_nsfw : Bool
  confidence : ℚ
  model_used : String
deriving DecidableEq

/-- Models `NSFWDetector.detect_image` on a decoded pixel grid:
`is_nsfw = confidence > self.config.nsfw_threshold`. -/
def detect_image (nsfw_threshold : ℚ) (g : Grid) : NSFWResult :=
  { is_nsfw := decide (nsfw_threshold < analyze_image_content g)
    confidence := analyze_image_content g
    model_used := "guardian_nsfw_v1" }

/-- A sticker: either animated (a `.tgs` path in the source) or static with a
decoded pixel grid. -/
structure Sticker where
  animated : Bool
  image : Grid

/-- Models `NSFWDetector.detect_sticker`: animated stickers get the fixed
moderate confidence 0.3, static stickers are analyzed like images. -/
def detect_sticker (nsfw_threshold : ℚ) (st : Sticker) : NSFWResult :=
  if st.animated then
    { is_nsfw := decide (nsfw_threshold < mkRat 3 10)
      confidence := mkRat 3 10
      model_used := "animated_analyzer" }
  else detect_image nsfw_threshold st.image

/- ------------------------------------------------------------------ -/
/- Security scanner: src/bot/modules/security/scanner.py               -/
/- ------------------------------------------------------------------ -/

def dangerous_extensions : List String :=
  [".exe", ".bat", ".cmd", ".com", ".pif", ".scr", ".vbs", ".js",
   ".jar", ".apk", ".deb", ".rpm", ".msi", ".dmg", ".pkg",
   ".sh", ".ps1", ".psm1", ".psd1", ".ps1xml", ".psc1"]

def suspicious_keywords : List String :=
  ["crack", "keygen", "patch", "hack", "cheat", "trainer",
   "leaked", "dump", "breach", "password", "passwords",
   "nude", "porn", "sex", "adult", "xxx", "nsfw"]

def malicious_domains : List String := ["malware.com", "phishing.net", "scam.org"]

def copyright_keywords : List String :=
  ["copyright", "©", "copyrighted", "pirated", "cracked",
   "leaked", "rip", "webrip", "dvdrip", "bluray",
   "torrent", "magnet:", "download free", "full movie"]

/-- Substring containment at the `String` level, Python `w in s`. -/
def containsSub (s w : String) : Bool := containsStr s.data w.data

/-- Models `pathlib.Path(filename).suffix` for plain filenames: the extension
of the final path component, nonempty only when the last dot of that
component is neither its first nor its last character. -/
def path_suffix (s : String) : String :=
  let name := ((splitOnChar '/' s.data).getLast?).getD []
  let dots := (List.range name.length).filter fun i => name.get? i = some '.'
  match dots.getLast? with
  | some i => if 0 < i ∧ i + 1 < name.length then ⟨name.drop i⟩ else ""
  | none => ""

/-- A document attachment; `pixels` is the decoded content used when the mime
type marks it as an image. -/
structure Document where
  file_name : Option String
  mime_type : Option String
  file_size : Option Nat
  pixels : Grid

structure Audio where
  file_name : Option String
  title : Option String
  performer : Option String

structure Video where
  file_name : Option String
  file_size : Option Nat

/-- Models `SecurityScanner.scan_document`: dangerous extension, suspicious
keyword, copyright keyword (when enabled), size above 100 MiB, or executable
mime type. -/
def scan_document (copyright_detection : Bool) (d : Document) : Bool :=
  let filename := strLowerS (d.file_name.getD "")
  let file_ext := strLowerS (path_suffix filename)
  if dangerous_extensions.contains file_ext then true
  else if suspicious_keywords.any fun k => containsSub filename k then true
  else if copyright_detection && copyright_keywords.any fun k => containsSub filename k then true
  else if decide (100 * 1024 * 1024 < d.file_size.getD 0) then true
  else if ["application/x-executable", "application/x-msdos-program"].contains
      (d.mime_type.getD "") then true
  else false

/-- Models `SecurityScanner.scan_audio`: with copyright detection on, flag if
`f"{filename} {title} {performer}"` (lowered fields) contains a copyright
keyword. -/
def scan_audio (copyright_detection : Bool) (a : Audio) : Bool :=
  if !copyright_detection then false
  else
    let filename := strLowerS (a.file_name.getD "")
    let title := strLowerS (a.title.getD "")
    let performer := strLowerS (a.performer.getD "")
    let text_to_check := filename ++ " " ++ title ++ " " ++ performer
    copyright_keywords.any fun k => containsSub text_to_check k

/-- Sequence of exactly `n` ASCII digits at position `i`. -/
def digitsAt (s : Chars) (i n : Nat) : Bool :=
  decide (((s.drop i).take n).length = n) && ((s.drop i).take n).all Char.isDigit

/-- Models the movie regex `\d{4}.*(?:webrip|dvdrip|bluray|brrip)` (searched
with IGNORECASE on the already-lowered filename): four digits somewhere,
followed later by one of the rip tags, with no newline in between. -/
def moviePat1 (s : Chars) : Bool :=
  (List.range (s.length + 1)).any fun i =>
    digitsAt s i 4 && thenDotStarAlt s (i + 4) (strsToChars ["webrip", "dvdrip", "bluray", "brrip"]) false

/-- Models the movie regex `(?:s\d{2}e\d{2}|season \d+)` on lowered text. -/
def moviePat2 (s : Chars) : Bool :=
  (List.range (s.length + 1)).any fun i =>
    (occursAt s ['s'] i && digitsAt s (i + 1) 2 && occursAt s ['e'] (i + 3) && digitsAt s (i + 4) 2) ||
    (occursAt s "season ".data i && digitsAt s (i + 7) 1)

/-- Models the movie regex `(?:1080p|720p|480p).*(?:x264|h264|xvid)` on
lowered text. -/
def moviePat3 (s : Chars) : Bool :=
  searchSeq s (strsToChars ["1080p", "720p", "480p"]) false false
    (strsToChars ["x264", "h264", "xvid"]) false

/-- Models `SecurityScanner.scan_video`: with copyright detection on, flag on
a copyright keyword in the lowered filename, or on any of the three movie
patterns. -/
def scan_video (copyright_detection : Bool) (v : Video) : Bool :=
  if !copyright_detection then false
  else
    let filename := strLowerS (v.file_name.getD "")
    if copyright_keywords.any fun k => containsSub filename k then true
    else moviePat1 filename.data || moviePat2 filename.data || moviePat3 filename.data

/-- Models the suspicious URL regex `bit\.ly|tinyurl|short\.link` (plain
substring alternatives) on the lowered URL. -/
def susPat1 (u : Chars) : Bool :=
  ["bit.ly", "tinyurl", "short.link"].any fun w => containsStr u w.data

/-- Models `download.*(?:free|crack|hack)` on the lowered URL. -/
def susPat2 (u : Chars) : Bool :=
  searchSeq u (strsToChars ["download"]) false false (strsToChars ["free", "crack", "hack"]) false

/-- Models `(?:porn|adult|xxx|sex)` on the lowered URL. -/
def susPat3 (u : Chars) : Bool :=
  ["porn", "adult", "xxx", "sex"].any fun w => containsStr u w.data

/-- Models `(?:bitcoin|crypto|investment).*(?:scam|fraud)` on the lowered URL. -/
def susPat4 (u : Chars) : Bool :=
  searchSeq u (strsToChars ["bitcoin", "crypto", "investment"]) false false
    (strsToChars ["scam", "fraud"]) false

/-- Models `re.match(r'https?://(?:\d{1,3}\.){3}\d{1,3}', url)`: anchored at
the start; each of the first three octets is a digit run of length 1–3
followed by a literal dot, the last needs at least one digit. The bounded
disjunctions over run lengths capture the backtracking semantics of the
greedy `\d{1,3}`. -/
def matchIp (url : Chars) : Bool :=
  let q := if occursAt url "https://".data 0 then some 8
    else if occursAt url "http://".data 0 then some 7
    else none
  match q with
  | some q =>
    [1, 2, 3].any fun a => digitsAt url q a && occursAt url ['.'] (q + a) &&
      ([1, 2, 3].any fun b => digitsAt url (q + a + 1) b && occursAt url ['.'] (q + a + 1 + b) &&
        ([1, 2, 3].any fun c => digitsAt url (q + a + b + 2) c && occursAt url ['.'] (q + a + b + 2 + c) &&
          digitsAt url (q + a + b + c + 3) 1))
  | none => false

/-- Models `SecurityScanner._is_suspicious_url`. -/
def is_suspicious_url (url : String) : Bool :=
  let ul := url.data.map Char.toLower
  susPat1 ul || susPat2 ul || susPat3 ul || susPat4 ul || matchIp url.data

/-- Models `SecurityScanner.scan_links`: disabled entirely when
`block_suspicious_links` is off; otherwise flag if any extracted URL has a
blocklisted domain or is suspicious. -/
def scan_links (block_suspicious_links : Bool) (text : String) : Bool :=
  if !block_suspicious_links then false
  else (extract_urls text).any fun url =>
    malicious_domains.contains (extract_domain url) || is_suspicious_url url

/- ------------------------------------------------------------------ -/
/- Configuration: src/bot/core/config.py                               -/
/- ------------------------------------------------------------------ -/

/-- The `Config` dataclass, with the same defaults as the source. -/
structure Config where
  bot_token : String
  api_id : Int
  api_hash : String
  bot_name : String := "GuardianAI"
  admin_chat_id : Option Int := none
  nsfw_threshold : ℚ := mkRat 6 10
  nsfw_model_path : String := "models/nsfw_model.onnx"
  spam_threshold : Int := 5
  max_messages_per_minute : Int := 10
  raid_threshold : Int := 10
  auto_delete_executables : Bool := true
  block_suspicious_links : Bool := true
  copyright_detection : Bool := true
  database_path : String := "data/guardian.db"
  enable_dashboard : Bool := false
  dashboard_port : Int := 5000
  dashboard_host : String := "0.0.0.0"
  log_level : String := "INFO"
  log_file : String := "logs/guardian.log"
deriving DecidableEq

/-- Python `str.strip()` on ASCII whitespace. -/
def trimChars (cs : Chars) : Chars :=
  ((cs.dropWhile Char.isWhitespace).reverse.dropWhile Char.isWhitespace).reverse

def strTrim (s : String) : String := ⟨trimChars s.data⟩

/-- The process environment, `os.getenv`: `none` models an unset variable. -/
abbrev Env := String → Option String

/-- Models the `safe_getenv` helper: a set, non-empty variable is stripped;
an unset or empty one falls back to the stripped default. -/
def safe_getenv (env : Env) (key dflt : String) : String :=
  match env key with
  | some v => if v = "" then strTrim dflt else strTrim v
  | none => strTrim dflt

/-- Models `safe_getenv_bool`: `os.getenv(key, default)` stripped and lowered
must be one of `true/1/yes/on`. -/
def safe_getenv_bool (env : Env) (key dflt : String) : Bool :=
  ["true", "1", "yes", "on"].contains (strLowerS (strTrim ((env key).getD dflt)))

/-- Value of a nonempty all-digit character run. -/
def digitsVal (cs : Chars) : Option Nat :=
  if cs ≠ [] && cs.all Char.isDigit then
    some (cs.foldl (fun acc c => acc * 10 + (c.toNat - 48)) 0)
  else none

/-- Models Python `int(s)` for optionally signed decimal strings (underscored
literals, not produced by this configuration surface, are not modelled);
`none` models the `ValueError` path. -/
def pyInt (s : String) : Option Int :=
  match trimChars s.data with
  | '+' :: r => (digitsVal r).map fun n => (n : Int)
  | '-' :: r => (digitsVal r).map fun n => -(n : Int)
  | r => (digitsVal r).map fun n => (n : Int)

/-- Models `safe_getenv_int`: parse the fetched value, falling back to the
parsed default (0 if that fails too). -/
def safe_getenv_int (env : Env) (key dflt : String) : Int :=
  match pyInt (safe_getenv env key dflt) with
  | some n => n
  | none => (pyInt dflt).getD 0

/-- Models Python `float(s)` for optionally signed plain decimal strings
(`d+`, `d+.d*`, `.d+`; exponents and inf/nan, not produced by this
configuration surface, are not modelled); `none` models the `ValueError`
path. -/
def pyFloat (s : String) : Option ℚ :=
  let t := trimChars s.data
  let sgnNeg : Bool := match t with
    | '-' :: _ => true
    | _ => false
  let r : Chars := match t with
    | '+' :: r => r
    | '-' :: r => r
    | r => r
  let ip := r.takeWhile Char.isDigit
  let rest := r.drop ip.length
  let mag : Option ℚ :=
    match rest with
    | [] => (digitsVal ip).map fun n => qOfNat n
    | '.' :: fp =>
      if fp.all Char.isDigit && (ip ≠ [] || fp ≠ []) then
        some (qAdd (qOfNat ((digitsVal ip).getD 0))
          (qDivNat (qOfNat ((digitsVal fp).getD 0)) (10 ^ fp.length)))
      else none
    | _ => none
  mag.map fun m => if sgnNeg then qNeg m else m

/-- Models `safe_getenv_float`. -/
def safe_getenv_float (env : Env) (key dflt : String) : ℚ :=
  match pyFloat (safe_getenv env key dflt) with
  | some q => q
  | none => (pyFloat dflt).getD (mkRat 0 1)

/-- The `Config(...)` construction inside `load_config`, field by field. -/
def build_config (env : Env) : Config :=
  let admin_chat_str := safe_getenv env "ADMIN_CHAT_ID" ""
  { bot_token := safe_getenv env "BOT_TOKEN" ""
    api_id := safe_getenv_int env "API_ID" "0"
    api_hash := safe_getenv env "API_HASH" ""
    bot_name := safe_getenv env "BOT_NAME" "GuardianAI"
    admin_chat_id := if admin_chat_str ≠ "" && strTrim admin_chat_str ≠ ""
      then pyInt admin_chat_str else none
    nsfw_threshold := safe_getenv_float env "NSFW_THRESHOLD" "0.6"
    nsfw_model_path := safe_getenv env "NSFW_MODEL_PATH" "models/nsfw_model.onnx"
    spam_threshold := safe_getenv_int env "SPAM_THRESHOLD" "5"
    max_messages_per_minute := safe_getenv_int env "MAX_MESSAGES_PER_MINUTE" "10"
    raid_threshold := safe_getenv_int env "RAID_THRESHOLD" "10"
    auto_delete_executables := safe_getenv_bool env "AUTO_DELETE_EXECUTABLES" "true"
    block_suspicious_links := safe_getenv_bool env "BLOCK_SUSPICIOUS_LINKS" "true"
    copyright_detection := safe_getenv_bool env "COPYRIGHT_DETECTION" "true"
    database_path := safe_getenv env "DATABASE_PATH" "data/guardian.db"
    enable_dashboard := safe_getenv_bool env "ENABLE_DASHBOARD" "false"
    dashboard_port := safe_getenv_int env "DASHBOARD_PORT" "5000"
    dashboard_host := safe_getenv env "DASHBOARD_HOST" "0.0.0.0"
    log_level := safe_getenv env "LOG_LEVEL" "INFO"
    log_file := safe_getenv env "LOG_FILE" "logs/guardian.log" }

/-- Models `load_config`: build the config from the environment, then
validate exactly the three credential fields (`if not config.bot_token`,
`if not config.api_id` — 0 is falsy —, `if not config.api_hash`); raising is
modelled by `Except.error`. -/
def load_config (env : Env) : Except String Config :=
  if (build_config env).bot_token = "" then
    Except.error "Invalid configuration: BOT_TOKEN is required"
  else if (build_config env).api_id = 0 then
    Except.error "Invalid configuration: API_ID is required"
  else if (build_config env).api_hash = "" then
    Except.error "Invalid configuration: API_HASH is required"
  else Except.ok (build_config env)

/- ------------------------------------------------------------------ -/
/- Message and join handlers: src/bot/handlers/message.py              -/
/- ------------------------------------------------------------------ -/

/-- The mutable per-process maps of `MessageHandler`:
`user_message_count : chat_id -> user_id -> timestamps` and
`recent_joins : chat_id -> timestamps`. `none` models an absent key. -/
structure BotState where
  user_message_count : Int → Int → Option (List ℚ)
  recent_joins : Int → Option (List ℚ)

/-- Models `_update_user_activity`: create the key if absent, append `now`,
then keep only timestamps strictly newer than `now` minus one minute. -/
def update_user_activity (st : BotState) (chat_id user_id : Int) (now : ℚ) : BotState :=
  let old := (st.user_message_count chat_id user_id).getD []
  let pruned := (old ++ [now]).filter fun ts => decide (qSub now (mkRat 60 1) < ts)
  { st with user_message_count := fun c u =>
      if c = chat_id ∧ u = user_id then some pruned else st.user_message_count c u }

/-- Models `_track_join`: create the key if absent, append `now`, then keep
only timestamps strictly newer than `now` minus five minutes. -/
def track_join (st : BotState) (chat_id : Int) (now : ℚ) : BotState :=
  let old := (st.recent_joins chat_id).getD []
  let pruned := (old ++ [now]).filter fun ts => decide (qSub now (mkRat 300 1) < ts)
  { st with recent_joins := fun c =>
      if c = chat_id then some pruned else st.recent_joins c }

/-- An incoming message; content fields mirror the pyrogram attributes the
handler reads, with decoded pixel grids in place of downloaded files. -/
structure Msg where
  chat_id : Int
  user_id : Int
  text : Option String
  photo : Option Grid
  sticker : Option Sticker
  document : Option Document
  audio : Option Audio
  video : Option Video

/-- Models `_check_spam`: the per-minute rate check against
`max_messages_per_minute` (only when the key is present), then the text
detector on `message.text or ""`. -/
def check_spam (cfg : Config) (st : BotState) (m : Msg) : Bool :=
  (match st.user_message_count m.chat_id m.user_id with
   | some l => decide (cfg.max_messages_per_minute < (l.length : Int))
   | none => false) ||
  detect_spam (m.text.getD "")

/-- Models `_check_nsfw_content`: photos and stickers are analyzed directly;
documents only when their mime type starts with `image/` (a missing mime type
raises in the source and is caught, yielding `False`, the value the embedding
gives it as well). -/
def check_nsfw_content (cfg : Config) (m : Msg) : Bool :=
  match m.photo with
  | some g => (detect_image cfg.nsfw_threshold g).is_nsfw
  | none =>
    match m.sticker with
    | some st => (detect_sticker cfg.nsfw_threshold st).is_nsfw
    | none =>
      match m.document with
      | some d =>
        if occursAt (d.mime_type.getD "").data "image/".data 0 then
          (detect_image cfg.nsfw_threshold d.pixels).is_nsfw
        else false
      | none => false

/-- Models `_check_security_threats`: document, else audio, else video. -/
def check_security_threats (cfg : Config) (m : Msg) : Bool :=
  match m.document with
  | some d => scan_document cfg.copyright_detection d
  | none =>
    match m.audio with
    | some a => scan_audio cfg.copyright_detection a
    | none =>
      match m.video with
      | some v => scan_video cfg.copyright_detection v
      | none => false

/-- Models `_check_suspicious_links`: only for truthy text. -/
def check_suspicious_links (cfg : Config) (m : Msg) : Bool :=
  match m.text with
  | some t => if t = "" then false else scan_links cfg.block_suspicious_links t
  | none => false

/-- The URL-ish tokens gating the link stage of `process_message`. -/
def link_tokens : List String := ["http", "www", ".com", ".org", ".net"]

/-- Observable events of one `process_message`/`handle_member_update` run:
stage evaluations (the call-count probe) and the dispatched side effects. -/
inductive Act where
  | spamEval
  | nsfwEval
  | securityEval
  | linkEval
  | deleteMsg
  | sendWarn
  | raidAlert
  | logAct : String → Act
  | incStat : String → Act
deriving DecidableEq

/-- Models `MessageHandler.process_message` as a function from the incoming
message (plus the collaborator predicates `is_enabled`/`is_admin` and the
handler state) to the updated state and the trace of stage evaluations and
side effects, in execution order. Each stage is gated and short-circuits
exactly as the source's early returns do. -/
def process_message (cfg : Config) (enabled : Int → Bool) (admin : Int → Int → Bool)
    (st : BotState) (now : ℚ) (m : Msg) : BotState × List Act :=
  if !(enabled m.chat_id) then (st, [])
  else if admin m.chat_id m.user_id then (st, [])
  else
    let st1 := update_user_activity st m.chat_id m.user_id now
    if check_spam cfg st1 m then
      (st1, [Act.spamEval, Act.deleteMsg, Act.logAct "SPAM_DELETED", Act.incStat "spam_blocked"])
    else
      let nsfwStage := m.photo.isSome || m.sticker.isSome || m.document.isSome
      let tr1 := [Act.spamEval] ++ (if nsfwStage then [Act.nsfwEval] else [])
      if nsfwStage && check_nsfw_content cfg m then
        (st1, tr1 ++ [Act.deleteMsg, Act.sendWarn, Act.logAct "NSFW_DELETED", Act.incStat "nsfw_detected"])
      else
        let secStage := m.document.isSome || m.audio.isSome || m.video.isSome
        let tr2 := tr1 ++ (if secStage then [Act.securityEval] else [])
        if secStage && check_security_threats cfg m then
          (st1, tr2 ++ [Act.deleteMsg, Act.sendWarn, Act.logAct "THREAT_BLOCKED", Act.incStat "threats_blocked"])
        else
          let linkStage := match m.text with
            | some t => decide (t ≠ "") && link_tokens.any fun k => containsSub (strLowerS t) k
            | none => false
          let tr3 := tr2 ++ (if linkStage then [Act.linkEval] else [])
          if linkStage && check_suspicious_links cfg m then
            (st1, tr3 ++ [Act.deleteMsg, Act.sendWarn, Act.logAct "LINK_BLOCKED"])
          else
            (st1, tr3 ++ [Act.incStat "messages_processed"])

/-- A chat-member update event: `old_is_none` models
`old_chat_member is None`, `new_status` the new member status string. -/
structure JoinEvent where
  chat_id : Int
  old_is_none : Bool
  new_status : String

/-- Models `_check_raid`: the join window of the chat (if present) holds at
least `raid_threshold` timestamps. -/
def check_raid (cfg : Config) (st : BotState) (chat_id : Int) : Bool :=
  match st.recent_joins chat_id with
  | none => false
  | some l => decide (cfg.raid_threshold ≤ (l.length : Int))

/-- Models `MessageHandler.handle_member_update`: for an enabled chat and a
fresh `member` join, record the join and dispatch the raid alert (message
plus audit log) whenever `_check_raid` fires. -/
def handle_member_update (cfg : Config) (enabled : Int → Bool) (st : BotState) (now : ℚ)
    (ev : JoinEvent) : BotState × List Act :=
  if !(enabled ev.chat_id) then (st, [])
  else if ev.old_is_none && (ev.new_status == "member") then
    let st1 := track_join st ev.chat_id now
    if check_raid cfg st1 ev.chat_id then
      (st1, [Act.raidAlert, Act.logAct "RAID_DETECTED"])
    else (st1, [])
  else (st, [])

/-- Folds `handle_member_update` over a sequence of join timestamps for one
fixed event shape, concatenating the traces. -/
def run_joins (cfg : Config) (enabled : Int → Bool) (ev : JoinEvent) :
    BotState → List ℚ → BotState × List Act
  | st, [] => (st, [])
  | st, t :: ts =>
    let r1 := handle_member_update cfg enabled st t ev
    let r2 := run_joins cfg enabled ev r1.1 ts
    (r2.1, r1.2 ++ r2.2)

/- ------------------------------------------------------------------ -/
/- Concrete fixtures used by witnesses and counterexamples             -/
/- ------------------------------------------------------------------ -/

/-- The empty handler state (fresh `MessageHandler`). -/
def st0 : BotState := { user_message_count := fun _ _ => none, recent_joins := fun _ => none }

/-- Collaborator stub: the bot is enabled in every chat. -/
def enT : Int → Bool := fun _ => true

/-- Collaborator stub: nobody is an admin. -/
def adF : Int → Int → Bool := fun _ _ => false

/-- A configuration with the source defaults. -/
def cfgW : Config := { bot_token := "t", api_id := 1, api_hash := "h" }

/-- A configuration with `raid_threshold = 2`. -/
def cfg2 : Config := { bot_token := "t", api_id := 1, api_hash := "h", raid_threshold := 2 }

/-- A 5×5 uniformly skin-colored image: every pixel passes the skin rule and
all first differences vanish. -/
def gridW : Grid := List.replicate 5 (List.replicate 5 (150, 60, 30))

/-- A single black pixel. -/
def gridB : Grid := [[(0, 0, 0)]]

/-- A message that is both spam text and NSFW photo. -/
def mW : Msg :=
  { chat_id := 1, user_id := 2, text := some "urgent congratulations nude"
    photo := some gridW, sticker := none, document := none, audio := none, video := none }

/-- A fresh `member` join event. -/
def evJ : JoinEvent := { chat_id := 5, old_is_none := true, new_status := "member" }

/-- An environment with valid credentials and out-of-range thresholds
(`NSFW_THRESHOLD=1.5`, `RAID_THRESHOLD=0`). -/
def envX : Env := fun k =>
  if k = "BOT_TOKEN" then some "t"
  else if k = "API_ID" then some "1"
  else if k = "API_HASH" then some "h"
  else if k = "NSFW_THRESHOLD" then some "1.5"
  else if k = "RAID_THRESHOLD" then some "0"
  else none

/-- The configuration `load_config` produces from `envX`. -/
def cfgLoadedX : Config :=
  { bot_token := "t", api_id := 1, api_hash := "h", bot_name := "GuardianAI"
    admin_chat_id := none, nsfw_threshold := mkRat 3 2
    nsfw_model_path := "models/nsfw_model.onnx", spam_threshold := 5
    max_messages_per_minute := 10, raid_threshold := 0
    auto_delete_executables := true, block_suspicious_links := true
    copyright_detection := true, database_path := "data/guardian.db"
    enable_dashboard := false, dashboard_port := 5000, dashboard_host := "0.0.0.0"
    log_level := "INFO", log_file := "logs/guardian.log" }

/-- The spam scenario text of the specification. -/
def t5 : String := "WIN FREE BITCOIN NOW!!! http://bit.ly/x"

/-- The video scenario filename of the specification. -/
def fn9 : String := "leaked_movie_webrip_2023.mp4"

def vid9 : Video := { file_name := some fn9, file_size := some 1000 }

/-- An all-uppercase text of length 11 (capitalization hypothesis). -/
def strA : String := "AAAAAAAAAA!"

/-- An all-punctuation text (punctuation hypothesis). -/
def strB : String := "!!!"

/- ------------------------------------------------------------------ -/
/- Transfer lemmas: the kernel-computable arithmetic agrees with ℚ    -/
/- ------------------------------------------------------------------ -/

theorem mkRat_zero_one : mkRat 0 1 = (0 : ℚ) := by
  norm_num [Rat.mkRat_eq_div]

theorem mkRat_one_one : mkRat 1 1 = (1 : ℚ) := by
  norm_num [Rat.mkRat_eq_div]

theorem qOfNat_eq (n : Nat) : qOfNat n = (n : ℚ) := by
  unfold qOfNat
  rw [Rat.mkRat_eq_div]
  push_cast
  simp

theorem qNeg_eq (a : ℚ) : qNeg a = -a := by
  unfold qNeg
  rw [Rat.mkRat_eq_div]
  push_cast
  rw [neg_div, Rat.num_div_den]

theorem qAdd_eq (a b : ℚ) : qAdd a b = a + b := (Rat.add_def' a b).symm

theorem qSub_eq (a b : ℚ) : qSub a b = a - b := (Rat.sub_def' a b).symm

theorem qMul_eq (a b : ℚ) : qMul a b = a * b := by
  unfold qMul
  rw [Rat.mkRat_eq_div]
  push_cast
  rw [← div_mul_div_comm, Rat.num_div_den, Rat.num_div_den]

theorem qDivNat_eq (a : ℚ) (n : Nat) : qDivNat a n = a / (n : ℚ) := by
  unfold qDivNat
  rcases Nat.eq_zero_or_pos n with h | h
  · subst h
    rw [Rat.mkRat_eq_div]
    push_cast
    simp
  · rw [Rat.mkRat_eq_div]
    push_cast
    rw [← div_div, Rat.num_div_den]

theorem qMin_eq (a b : ℚ) : qMin a b = min a b := by
  unfold qMin
  rcases le_or_lt a b with h | h
  · rw [if_neg (not_lt.2 h), min_eq_left h]
  · rw [if_pos h, min_eq_right h.le]

theorem qMax_eq (a b : ℚ) : qMax a b = max a b := by
  unfold qMax
  rcases lt_or_le a b with h | h
  · rw [if_pos h, max_eq_right h.le]
  · rw [if_neg (not_lt.2 h), max_eq_left h]

theorem qAbs_eq (a : ℚ) : qAbs a = |a| := by
  unfold qAbs
  rw [mkRat_zero_one]
  rcases lt_or_le a 0 with h | h
  · rw [if_pos h, qNeg_eq, abs_of_neg h]
  · rw [if_neg (not_lt.2 h), abs_of_nonneg h]

theorem qSum_eq (l : List ℚ) : qSum l = l.sum := by
  induction l with
  | nil => simp [qSum, mkRat_zero_one]
  | cons x t ih => simp [qSum, qAdd_eq, ih]

theorem qSum_nonneg (l : List ℚ) (h : ∀ x ∈ l, 0 ≤ x) : 0 ≤ qSum l := by
  rw [qSum_eq]
  exact List.sum_nonneg h

theorem analyze_text_confidence_eq (t : String) :
    (analyze_text t).confidence = qMin (raw_confidence t) (mkRat 1 1) := rfl

theorem detect_image_confidence_eq (th : ℚ) (g : Grid) :
    (detect_image th g).confidence = analyze_image_content g := by
  simp only [detect_image]

theorem detect_image_is_nsfw_eq (th : ℚ) (g : Grid) :
    (detect_image th g).is_nsfw = decide (th < analyze_image_content g) := by
  unfold detect_image
  rfl

/- ------------------------------------------------------------------ -/
/- Nonnegativity of the spam score contributions                       -/
/- ------------------------------------------------------------------ -/

theorem pattern_score_nonneg (t : String) : 0 ≤ pattern_score t := by
  rw [pattern_score, qMul_eq, qOfNat_eq]
  have h : mkRat 3 10 = (3 / 10 : ℚ) := by norm_num [Rat.mkRat_eq_div]
  rw [h]
  positivity

theorem caps_contribution_nonneg (t : String) : 0 ≤ caps_contribution t := by
  rw [caps_contribution]
  split_ifs <;> norm_num [Rat.mkRat_eq_div]

theorem punct_contribution_nonneg (t : String) : 0 ≤ punct_contribution t := by
  rw [punct_contribution]
  split_ifs <;> norm_num [Rat.mkRat_eq_div]

theorem url_contribution_nonneg (t : String) : 0 ≤ url_contribution t := by
  rw [url_contribution, qMul_eq, qOfNat_eq]
  have h : mkRat 5 10 = (5 / 10 : ℚ) := by norm_num [Rat.mkRat_eq_div]
  rw [h]
  positivity

theorem rep_contribution_nonneg (t : String) : 0 ≤ rep_contribution t := by
  rw [rep_contribution]
  split_ifs <;> norm_num [Rat.mkRat_eq_div]

theorem emoji_contribution_nonneg (t : String) : 0 ≤ emoji_contribution t := by
  rw [emoji_contribution]
  split_ifs <;> norm_num [Rat.mkRat_eq_div]

theorem raw_confidence_nonneg (t : String) : 0 ≤ raw_confidence t := by
  rw [raw_confidence, qAdd_eq, qAdd_eq, qAdd_eq, qAdd_eq, qAdd_eq]
  exact add_nonneg (add_nonneg (add_nonneg (add_nonneg (add_nonneg
    (pattern_score_nonneg t) (caps_contribution_nonneg t)) (punct_contribution_nonneg t))
    (url_contribution_nonneg t)) (rep_contribution_nonneg t)) (emoji_contribution_nonneg t)

/- ------------------------------------------------------------------ -/
/- Bounds of the NSFW scorer components                                -/
/- ------------------------------------------------------------------ -/

theorem detect_skin_tones_bounds (g : Grid) :
    0 ≤ detect_skin_tones g ∧ detect_skin_tones g ≤ 1 := by
  rw [detect_skin_tones]
  rw [qMin_eq, mkRat_one_one]
  have hfrac : 0 ≤ (if 0 < gridHeight g / 5 * (gridWidth g / 5) then
      qDivNat (qOfNat (((sampleIdxs (gridHeight g)).map fun i =>
        (sampleIdxs (gridWidth g)).countP fun j => skinLike (pixelAt g i j)).sum))
        (gridHeight g / 5 * (gridWidth g / 5))
    else mkRat 0 1) := by
    split_ifs
    · rw [qDivNat_eq, qOfNat_eq]
      positivity
    · rw [mkRat_zero_one]
  constructor
  · refine le_min ?_ zero_le_one
    rw [qMul_eq]
    have h2 : mkRat 2 1 = (2 : ℚ) := by norm_num [Rat.mkRat_eq_div]
    rw [h2]
    positivity
  · exact min_le_right _ _

theorem calculate_edge_density_bounds (g : Grid) :
    0 ≤ calculate_edge_density g ∧ calculate_edge_density g ≤ 1 := by
  rw [calculate_edge_density]
  rw [qMax_eq, mkRat_zero_one]
  have habs : ∀ p : ℚ × ℚ, 0 ≤ qAbs (qSub p.1 p.2) := by
    intro p
    rw [qAbs_eq]
    exact abs_nonneg _
  have hsumX : 0 ≤ qSum ((g.map fun row => row.map luminance).map fun row => qSum (rowAbsDiffs row)) := by
    refine qSum_nonneg _ ?_
    intro x hx
    rcases List.mem_map.1 hx with ⟨row, _, rfl⟩
    refine qSum_nonneg _ ?_
    intro y hy
    rcases List.mem_map.1 hy with ⟨p, _, rfl⟩
    exact habs p
  have hsumY : 0 ≤ colAbsDiffSum (g.map fun row => row.map luminance) := by
    rw [colAbsDiffSum]
    refine qSum_nonneg _ ?_
    intro x hx
    rcases List.mem_map.1 hx with ⟨rp, _, rfl⟩
    refine qSum_nonneg _ ?_
    intro y hy
    rcases List.mem_map.1 hy with ⟨p, _, rfl⟩
    exact habs p
  have hstrength : 0 ≤ qAdd
      (qDivNat (qSum ((g.map fun row => row.map luminance).map fun row => qSum (rowAbsDiffs row)))
        (gridHeight g * (gridWidth g - 1)))
      (qDivNat (colAbsDiffSum (g.map fun row => row.map luminance)) ((gridHeight g - 1) * gridWidth g)) := by
    rw [qAdd_eq, qDivNat_eq, qDivNat_eq]
    have c1 : (0 : ℚ) ≤ ((gridHeight g * (gridWidth g - 1) : ℕ) : ℚ) := by positivity
    have c2 : (0 : ℚ) ≤ (((gridHeight g - 1) * gridWidth g : ℕ) : ℚ) := by positivity
    exact add_nonneg (div_nonneg hsumX c1) (div_nonneg hsumY c2)
  constructor
  · exact le_max_left _ _
  · refine max_le zero_le_one ?_
    rw [qSub_eq, mkRat_one_one, qDivNat_eq]
    have : 0 ≤ (qAdd
        (qDivNat (qSum ((g.map fun row => row.map luminance).map fun row => qSum (rowAbsDiffs row)))
          (gridHeight g * (gridWidth g - 1)))
        (qDivNat (colAbsDiffSum (g.map fun row => row.map luminance)) ((gridHeight g - 1) * gridWidth g))) / ((50 : ℕ) : ℚ) := by
      have c3 : (0 : ℚ) ≤ ((50 : ℕ) : ℚ) := by positivity
      exact div_nonneg hstrength c3
    linarith

theorem analyze_image_content_bounds (g : Grid) :
    0 ≤ analyze_image_content g ∧ analyze_image_content g ≤ 1 := by
  rw [analyze_image_content, qMin_eq, mkRat_one_one, qAdd_eq, qMul_eq, qMul_eq]
  have h6 : mkRat 6 10 = (6 / 10 : ℚ) := by norm_num [Rat.mkRat_eq_div]
  have h4 : mkRat 4 10 = (4 / 10 : ℚ) := by norm_num [Rat.mkRat_eq_div]
  rw [h6, h4]
  have hs := (detect_skin_tones_bounds g).1
  have he := (calculate_edge_density_bounds g).1
  constructor
  · refine le_min ?_ zero_le_one
    have h1 : (0 : ℚ) ≤ detect_skin_tones g * (6 / 10) := mul_nonneg hs (by norm_num)
    have h2 : (0 : ℚ) ≤ calculate_edge_density g * (4 / 10) := mul_nonneg he (by norm_num)
    linarith
  · exact min_le_right _ _

/- ------------------------------------------------------------------ -/
/- Claims                                                              -/
/- ------------------------------------------------------------------ -/

/-- C1: pipeline short-circuit. For every message processed in an enabled
chat by a non-admin whose text satisfies the spam criteria
(`detect_spam` is true) and whose attached photo satisfies the NSFW criteria
(`detect_image` reports `is_nsfw`), `process_message` emits exactly the spam
trace — spam stage evaluation, message deletion, `SPAM_DELETED` audit log and
`spam_blocked` stat — and the NSFW stage is never evaluated. -/
theorem c1_short_circuit (cfg : Config) (enabled : Int → Bool) (admin : Int → Int → Bool)
    (st : BotState) (now : ℚ) (m : Msg) (g : Grid)
    (hEn : enabled m.chat_id = true)
    (hAd : admin m.chat_id m.user_id = false)
    (hSpam : detect_spam (m.text.getD "") = true)
    (hPhoto : m.photo = some g)
    (hNsfw : (detect_image cfg.nsfw_threshold g).is_nsfw = true) :
    (process_message cfg enabled admin st now m).2 =
      [Act.spamEval, Act.deleteMsg, Act.logAct "SPAM_DELETED", Act.incStat "spam_blocked"] ∧
    Act.nsfwEval ∉ (process_message cfg enabled admin st now m).2 := by
  have hcs : check_spam cfg (update_user_activity st m.chat_id m.user_id now) m = true := by
    unfold check_spam
    rw [hSpam, Bool.or_true]
  have hpm : process_message cfg enabled admin st now m =
      (update_user_activity st m.chat_id m.user_id now,
        [Act.spamEval, Act.deleteMsg, Act.logAct "SPAM_DELETED", Act.incStat "spam_blocked"]) := by
    simp [process_message, hEn, hAd, hcs]
  rw [hpm]
  exact ⟨rfl, by simp⟩

/-- C1 witness: the concrete spam text `"urgent congratulations nude"`
(three pattern hits, confidence 0.9) and the uniform skin-colored photo
`gridW` (confidence 1 > threshold 0.6) exercise the theorem. -/
theorem c1_witness :
    (process_message cfgW enT adF st0 0 mW).2 =
      [Act.spamEval, Act.deleteMsg, Act.logAct "SPAM_DELETED", Act.incStat "spam_blocked"] ∧
    Act.nsfwEval ∉ (process_message cfgW enT adF st0 0 mW).2 :=
  c1_short_circuit cfgW enT adF st0 0 mW gridW rfl rfl (by decide) rfl (by decide)

/-- C2: sliding-window invariant. After `_update_user_activity` (horizon
60 s) and `_track_join` (horizon 300 s), every retained timestamp `t`
satisfies `now - t ≤ H`, and the retained window is a sublist of the previous
window with `now` appended, so insertion order is preserved. -/
theorem c2_window_invariant (st : BotState) (c u : Int) (now : ℚ) :
    (∀ t ∈ (((update_user_activity st c u now).user_message_count c u).getD []), now - t ≤ 60) ∧
    (((update_user_activity st c u now).user_message_count c u).getD []).Sublist
      (((st.user_message_count c u).getD []) ++ [now]) ∧
    (∀ t ∈ (((track_join st c now).recent_joins c).getD []), now - t ≤ 300) ∧
    (((track_join st c now).recent_joins c).getD []).Sublist
      (((st.recent_joins c).getD []) ++ [now]) := by
  have hm : (update_user_activity st c u now).user_message_count c u =
      some ((((st.user_message_count c u).getD []) ++ [now]).filter
        fun ts => decide (qSub now (mkRat 60 1) < ts)) := by
    simp [update_user_activity]
  have hj : (track_join st c now).recent_joins c =
      some ((((st.recent_joins c).getD []) ++ [now]).filter
        fun ts => decide (qSub now (mkRat 300 1) < ts)) := by
    simp [track_join]
  have h60 : mkRat 60 1 = (60 : ℚ) := by norm_num [Rat.mkRat_eq_div]
  have h300 : mkRat 300 1 = (300 : ℚ) := by norm_num [Rat.mkRat_eq_div]
  refine ⟨?_, ?_, ?_, ?_⟩
  · intro t ht
    rw [hm, Option.getD_some] at ht
    have hd := List.of_mem_filter ht
    have hlt : qSub now (mkRat 60 1) < t := of_decide_eq_true hd
    rw [qSub_eq, h60] at hlt
    linarith
  · rw [hm, Option.getD_some]
    exact List.filter_sublist _
  · intro t ht
    rw [hj, Option.getD_some] at ht
    have hd := List.of_mem_filter ht
    have hlt : qSub now (mkRat 300 1) < t := of_decide_eq_true hd
    rw [qSub_eq, h300] at hlt
    linarith
  · rw [hj, Option.getD_some]
    exact List.filter_sublist _

/-- C2 witness: one update of the empty state at time 0 retains exactly the
new timestamp, inside both horizons and in order. -/
theorem c2_witness :
    ((0 : ℚ) - 0 ≤ 60) ∧
    (((update_user_activity st0 0 0 0).user_message_count 0 0).getD []).Sublist
      (((st0.user_message_count 0 0).getD []) ++ [(0 : ℚ)]) ∧
    ((0 : ℚ) - 0 ≤ 300) ∧
    (((track_join st0 0 0).recent_joins 0).getD []).Sublist
      (((st0.recent_joins 0).getD []) ++ [(0 : ℚ)]) := by
  have h := c2_window_invariant st0 0 0 0
  exact ⟨h.1 0 (by decide), h.2.1, h.2.2.1 0 (by decide), h.2.2.2⟩

/-- C3: NSFW verdict characterization. For every decoded pixel grid and every
threshold in [0,1], `detect_image` reports `is_nsfw` exactly when its
`confidence` exceeds the threshold, and the confidence equals
`min(0.6 * skin_ratio + 0.4 * edge_density, 1)` — a function of the grid
alone, hence deterministic. -/
theorem c3_nsfw_characterization (nsfw_threshold : ℚ) (g : Grid)
    (h0 : 0 ≤ nsfw_threshold) (h1 : nsfw_threshold ≤ 1) :
    ((detect_image nsfw_threshold g).is_nsfw = true ↔
      nsfw_threshold < (detect_image nsfw_threshold g).confidence) ∧
    (detect_image nsfw_threshold g).confidence =
      min (detect_skin_tones g * (6 / 10 : ℚ) + calculate_edge_density g * (4 / 10 : ℚ)) 1 := by
  constructor
  · rw [detect_image_is_nsfw_eq, detect_image_confidence_eq]
    exact decide_eq_true_iff
  · rw [detect_image_confidence_eq]
    rw [analyze_image_content, qMin_eq, mkRat_one_one, qAdd_eq, qMul_eq, qMul_eq]
    have h6 : mkRat 6 10 = (6 / 10 : ℚ) := by norm_num [Rat.mkRat_eq_div]
    have h4 : mkRat 4 10 = (4 / 10 : ℚ) := by norm_num [Rat.mkRat_eq_div]
    rw [h6, h4]

/-- C3 witness: the single-black-pixel grid with threshold 1/2. -/
theorem c3_witness :
    ((detect_image (mkRat 1 2) gridB).is_nsfw = true ↔
      mkRat 1 2 < (detect_image (mkRat 1 2) gridB).confidence) ∧
    (detect_image (mkRat 1 2) gridB).confidence =
      min (detect_skin_tones gridB * (6 / 10 : ℚ) + calculate_edge_density gridB * (4 / 10 : ℚ)) 1 :=
  c3_nsfw_characterization (mkRat 1 2) gridB (by decide) (by decide)

/-- C4 counterexample: with `raid_threshold = 2`, three joins at times 0, 1, 2
(all inside one 5-minute window) dispatch TWO raid alerts — the second and
third join each re-fire — contradicting "at most one alert per breach
crossing". -/
theorem c4_counterexample :
    ((run_joins cfg2 enT evJ st0 [0, 1, 2]).2.countP fun a => decide (a = Act.raidAlert)) = 2 := by
  decide

/-- C4 amended: the alert is re-armed on every join. For an enabled chat and
a fresh `member` join, `handle_member_update` dispatches a raid alert exactly
when the freshly pruned join window holds at least `raid_threshold` entries —
independent of any earlier alert, so every further join inside the same
breach window fires again. -/
theorem c4_amended_alert (cfg : Config) (enabled : Int → Bool) (st : BotState) (now : ℚ)
    (ev : JoinEvent)
    (hEn : enabled ev.chat_id = true)
    (hOld : ev.old_is_none = true)
    (hSt : ev.new_status = "member") :
    (Act.raidAlert ∈ (handle_member_update cfg enabled st now ev).2) ↔
      check_raid cfg (track_join st ev.chat_id now) ev.chat_id = true := by
  cases h : check_raid cfg (track_join st ev.chat_id now) ev.chat_id <;>
    simp [handle_member_update, hEn, hOld, hSt, h]

/-- C4 witness: the first join of an empty window with threshold 2 does not
alert, matching the window check on both sides of the equivalence. -/
theorem c4_witness :
    (Act.raidAlert ∈ (handle_member_update cfg2 enT st0 0 evJ).2) ↔
      check_raid cfg2 (track_join st0 evJ.chat_id 0) evJ.chat_id = true :=
  c4_amended_alert cfg2 enT st0 0 evJ rfl rfl rfl

/-- C5 counterexample: on the scenario text
`"WIN FREE BITCOIN NOW!!! http://bit.ly/x"` the detector reports confidence
1/2 — not a value above 0.6 — and does NOT flag the text as spam. -/
theorem c5_counterexample :
    detect_spam t5 = false ∧ (analyze_text t5).confidence = mkRat 1 2 := by
  constructor <;> decide

/-- C5 amended: on the scenario text no regex pattern matches (the pattern
rules want `click`/`link`/`visit` after the lure words), the capitalization
ratio (17/39) and the punctuation ratio (4/39) are below their cutoffs, and
only the spam-domain contribution 0.5 for `bit.ly` accrues; the resulting
confidence 0.5 does not exceed the 0.6 threshold, so the text is not flagged
as spam. -/
theorem c5_amended_confidence :
    pattern_score t5 = 0 ∧ caps_contribution t5 = 0 ∧ punct_contribution t5 = 0 ∧
    rep_contribution t5 = 0 ∧ emoji_contribution t5 = 0 ∧
    url_contribution t5 = mkRat 1 2 ∧ (analyze_text t5).is_spam = false := by
  refine ⟨by decide, by decide, by decide, by decide, by decide, by decide, by decide⟩

/-- C6 counterexample: `load_config` accepts an environment whose thresholds
are out of range — `NSFW_THRESHOLD=1.5` (above 1) and `RAID_THRESHOLD=0`
(below 1) are stored unchanged instead of being rejected. -/
theorem c6_counterexample :
    (load_config envX).toOption = some cfgLoadedX ∧
    cfgLoadedX.nsfw_threshold = mkRat 3 2 ∧ ¬(cfgLoadedX.nsfw_threshold ≤ 1) ∧
    cfgLoadedX.raid_threshold = 0 ∧ cfgLoadedX.raid_threshold < 1 := by
  refine ⟨by decide, by decide, by decide, by decide, by decide⟩

/-- C6 amended: the only validation `load_config` performs is presence of the
three credentials — a successfully loaded configuration has a nonempty
`bot_token`, a nonzero `api_id` and a nonempty `api_hash`; threshold fields
are not checked at all (see the counterexample). -/
theorem c6_only_credentials_validated (env : Env) (cfg : Config)
    (h : load_config env = Except.ok cfg) :
    cfg.bot_token ≠ "" ∧ cfg.api_id ≠ 0 ∧ cfg.api_hash ≠ "" := by
  unfold load_config at h
  split_ifs at h with h1 h2 h3
  all_goals first
    | exact Except.noConfusion h
    | (injection h with h4; subst h4; exact ⟨h1, h2, h3⟩)

/-- C6 witness: the loaded `envX` configuration has the three credentials. -/
theorem c6_witness :
    cfgLoadedX.bot_token ≠ "" ∧ cfgLoadedX.api_id ≠ 0 ∧ cfgLoadedX.api_hash ≠ "" := by
  have hok : load_config envX = Except.ok cfgLoadedX := by
    have h := (c6_counterexample).1
    cases hl : load_config envX with
    | ok c => rw [hl] at h; simp [Except.toOption] at h; rw [h]
    | error e => rw [hl] at h; simp [Except.toOption] at h
  exact c6_only_credentials_validated envX cfgLoadedX hok

/-- C7: confidence bounds. The spam scorer's clipped confidence and the NSFW
scorer's confidence lie in [0,1] for every input, and so does the skin-tone
ratio despite its floor-divided sampled-pixel denominator. -/
theorem c7_confidence_bounds :
    (∀ text : String, 0 ≤ (analyze_text text).confidence ∧ (analyze_text text).confidence ≤ 1) ∧
    (∀ (nsfw_threshold : ℚ) (g : Grid),
      0 ≤ (detect_image nsfw_threshold g).confidence ∧
      (detect_image nsfw_threshold g).confidence ≤ 1) ∧
    (∀ g : Grid, 0 ≤ detect_skin_tones g ∧ detect_skin_tones g ≤ 1) := by
  refine ⟨?_, ?_, ?_⟩
  · intro text
    rw [analyze_text_confidence_eq, qMin_eq, mkRat_one_one]
    exact ⟨le_min (raw_confidence_nonneg text) zero_le_one, min_le_right _ _⟩
  · intro th g
    rw [detect_image_confidence_eq]
    exact analyze_image_content_bounds g
  · exact detect_skin_tones_bounds

/-- C8 counterexample: `"HELLO"` has capitalization ratio 1 > 0.7, yet its
capitalization contribution is 0 — the 0.4 bonus is skipped because the text
is not longer than 10 characters — and its total confidence is 0. -/
theorem c8_counterexample :
    mkRat 7 10 < caps_frac "HELLO" ∧ caps_contribution "HELLO" = 0 ∧
    (analyze_text "HELLO").confidence = 0 := by
  refine ⟨by decide, by decide, by decide⟩

/-- C8 amended: the 0.4 capitalization contribution requires the text to be
longer than 10 characters in addition to a ratio above 0.7; the 0.3
punctuation contribution follows from a punctuation ratio above 0.3 alone
(`mkRat 7 10`, `mkRat 4 10`, `mkRat 3 10` are 0.7, 0.4 and 0.3). -/
theorem c8_caps_needs_length (text : String) :
    (10 < text.data.length → mkRat 7 10 < caps_frac text →
      caps_contribution text = mkRat 4 10) ∧
    (mkRat 3 10 < punct_frac text → punct_contribution text = mkRat 3 10) := by
  constructor
  · intro h1 h2
    rw [caps_contribution, if_pos h1, if_pos h2]
  · intro h
    rw [punct_contribution, if_pos h]

/-- C8 witness: an 11-character all-caps text earns the 0.4 bonus and an
all-punctuation text earns the 0.3 bonus. -/
theorem c8_witness :
    caps_contribution strA = mkRat 4 10 ∧ punct_contribution strB = mkRat 3 10 :=
  ⟨(c8_caps_needs_length strA).1 (by decide) (by decide),
   (c8_caps_needs_length strB).2 (by decide)⟩

/-- C9 counterexample: on `"leaked_movie_webrip_2023.mp4"` the
year-then-rip-tag regex `\d{4}.*(?:webrip|...)` does NOT match (the year 2023
follows the rip tag instead of preceding it), so the claim that both the
keyword and this regex signature match is false even though the scan flags
the file. -/
theorem c9_counterexample :
    ¬ (scan_video true vid9 = true ∧ moviePat1 (strLowerS fn9).data = true) := by
  decide

/-- C9 amended: with copyright detection enabled, scanning
`"leaked_movie_webrip_2023.mp4"` returns flagged, via the copyright keyword
`"leaked"` contained in the filename; the 4-digit-year-followed-by-rip-tag
regex does not match this filename. -/
theorem c9_keyword_flagged :
    scan_video true vid9 = true ∧ containsSub (strLowerS fn9) "leaked" = true ∧
    moviePat1 (strLowerS fn9).data = false := by
  refine ⟨by decide, by decide, by decide⟩

/-- C10: empty-text short circuit. `detect_spam` of the empty string is false
whatever analyzer would be used — the guard returns before any pattern, ratio,
URL or repetition rule can run (the detector reads no configuration at all),
so empty or absent text is never classified as spam. -/
theorem c10_empty_text :
    (∀ analyze : String → SpamResult, detect_spam_gen analyze "" = false) ∧
    detect_spam "" = false :=
  ⟨fun _ => rfl, rfl⟩

end GuardianAI
